import Mathlib

/-!
Verification development for the earnings-call trade-signal pipeline
(backend of the Agentic-trade-long repository).

Each Python component that the claims concern is shallowly embedded as
executable Lean definitions:

* `backend/core/trading_calendar.py` — dates are day numbers (`Nat`); the
  pandas market calendar is a Boolean predicate `isTd : Nat → Bool`.  The
  internal trading-day cache always holds exactly the calendar days of the
  window it was ensured over, so a membership test against the cache is a
  membership test against the calendar restricted to that window.
* `backend/signals/gate.py` — floats become rationals (`ℚ`).
* `backend/eval/consistency_checker.py`
* `backend/papertrading/freeze_policy.py` — `hashlib.sha256` is an opaque
  function `String → String` passed as a parameter; `json.dumps(...,
  sort_keys=True)` is reproduced as an explicit string builder.
* `backend/papertrading/order_book.py` — the order dict becomes an
  association list; `datetime.utcnow()` timestamps and `uuid` ids are
  passed in as parameters, making the operations pure.
-/

namespace AgenticTradeLong

/-! ## TradingCalendar (backend/core/trading_calendar.py) -/

/-- Embeds `TradingCalendar.next_trading_day`: the `while` loop probes
`d+1, d+2, …` in order and raises once `next_day` exceeds `d + 30`,
so exactly the days `d+1 … d+30` are tested; `none` models the raised
`ValueError`. -/
def nextTradingDay (isTd : Nat → Bool) (d : Nat) : Option Nat :=
  (List.range' (d + 1) 30).find? isTd

/-- Embeds `TradingCalendar.calculate_entry_date`, which simply delegates to
`next_trading_day`. -/
def calculateEntryDate (isTd : Nat → Bool) (d : Nat) : Option Nat :=
  nextTradingDay isTd d

/-- Embeds `TradingCalendar.get_trading_days_between start end`: the sorted
trading days in the inclusive window `[start, end]` (the ensured cache is a
superset of the window, and the comprehension filters back down to it). -/
def tradingDaysBetween (isTd : Nat → Bool) (start e : Nat) : List Nat :=
  (List.range' start (e + 1 - start)).filter isTd

/-- Embeds `TradingCalendar.count_trading_days`: trading days strictly after
`start` and up to (and including) `e`. -/
def countTradingDays (isTd : Nat → Bool) (start e : Nat) : Nat :=
  (tradingDaysBetween isTd (start + 1) e).length

/-- Embeds `TradingCalendar.add_trading_days`: raises on `n ≤ 0` (`none` here);
otherwise the cache is ensured over `[d − 30, d + 2n + 60]`, the trading
days strictly after `d` — i.e. those in `(d, d + 2n + 60]` — are sorted,
and the `n`-th one is returned (`none` models the raised `ValueError`
when the cache holds fewer than `n` of them). -/
def addTradingDays (isTd : Nat → Bool) (d n : Nat) : Option Nat :=
  if n = 0 then none
  else ((List.range' (d + 1) (2 * n + 60)).filter isTd)[n - 1]?

/-- A successful `find?` over `range' s n` returns a hit inside the window
that nothing in the window precedes. -/
lemma find?_range'_spec (p : Nat → Bool) :
    ∀ (n s e : Nat), (List.range' s n).find? p = some e →
      p e = true ∧ s ≤ e ∧ e < s + n ∧ ∀ x, s ≤ x → x < e → p x = false := by
  intro n
  induction n with
  | zero => intro s e h; simp at h
  | succ n ih =>
    intro s e h
    rw [List.range'_succ] at h
    by_cases hp : p s
    · rw [List.find?_cons_of_pos _ hp] at h
      cases h
      exact ⟨hp, Nat.le_refl _, by omega, fun x hx1 hx2 => by omega⟩
    · rw [List.find?_cons_of_neg _ hp] at h
      obtain ⟨h1, h2, h3, h4⟩ := ih (s + 1) e h
      refine ⟨h1, by omega, by omega, ?_⟩
      intro x hx1 hx2
      rcases Nat.eq_or_lt_of_le hx1 with hx | hlt
      · subst hx; simpa using hp
      · exact h4 x (by omega) hx2

/-- If the `i`-th element of a filtered ascending range is `e`, then the
filtered range cut off right after `e` has exactly `i + 1` elements. -/
lemma filtered_range'_getElem?_length (p : Nat → Bool) :
    ∀ (M s i e : Nat), ((List.range' s M).filter p)[i]? = some e →
      ((List.range' s (e + 1 - s)).filter p).length = i + 1 := by
  intro M
  induction M with
  | zero => intro s i e h; simp at h
  | succ M ih =>
    intro s i e h
    rw [List.range'_succ] at h
    by_cases hp : p s
    · rw [List.filter_cons_of_pos hp] at h
      match i with
      | 0 =>
        rw [List.getElem?_cons_zero] at h
        cases h
        have hs : s + 1 - s = 1 := by omega
        rw [hs, List.range'_one]
        simp [List.filter, hp]
      | j + 1 =>
        rw [List.getElem?_cons_succ] at h
        have hmem : e ∈ (List.range' (s + 1) M).filter p := by
          exact List.getElem?_mem h
        have hge : s + 1 ≤ e := by
          have := List.mem_range'_1.mp (List.mem_of_mem_filter hmem)
          omega
        have hih := ih (s + 1) j e h
        have hsplit : e + 1 - s = (e - s) + 1 := by omega
        rw [hsplit, List.range'_succ, List.filter_cons_of_pos hp]
        have hsame : e + 1 - (s + 1) = e - s := by omega
        rw [hsame] at hih
        simp [hih]
    · rw [List.filter_cons_of_neg hp] at h
      have hmem : e ∈ (List.range' (s + 1) M).filter p := by
        exact List.getElem?_mem h
      have hge : s + 1 ≤ e := by
        have := List.mem_range'_1.mp (List.mem_of_mem_filter hmem)
        omega
      have hih := ih (s + 1) i e h
      have hsplit : e + 1 - s = (e - s) + 1 := by omega
      rw [hsplit, List.range'_succ, List.filter_cons_of_neg hp]
      have hsame : e + 1 - (s + 1) = e - s := by omega
      rw [hsame] at hih
      exact hih

/-- Claim C5: `calculate_entry_date d = next_trading_day d`; whenever
`next_trading_day d` returns a date `e`, that date is strictly after `d`,
is a trading day, and no earlier date after `d` is a trading day (so it is
the smallest trading day `> d`); and it fails (raises) exactly when no
trading day exists within the 30 calendar days after `d`. -/
theorem C5_entry_date_spec :
    (∀ (isTd : Nat → Bool) (d : Nat),
      calculateEntryDate isTd d = nextTradingDay isTd d)
    ∧ (∀ (isTd : Nat → Bool) (d e : Nat), nextTradingDay isTd d = some e →
        d < e ∧ isTd e = true ∧ ∀ x, d < x → x < e → isTd x = false)
    ∧ (∀ (isTd : Nat → Bool) (d : Nat), nextTradingDay isTd d = none ↔
        ∀ x, d < x → x ≤ d + 30 → isTd x = false) := by
  refine ⟨fun _ _ => rfl, ?_, ?_⟩
  · intro isTd d e h
    obtain ⟨h1, h2, _h3, h4⟩ := find?_range'_spec isTd 30 (d + 1) e h
    exact ⟨by omega, h1, fun x hx1 hx2 => h4 x (by omega) hx2⟩
  · intro isTd d
    unfold nextTradingDay
    rw [List.find?_eq_none]
    constructor
    · intro h x hx1 hx2
      have hmem : x ∈ List.range' (d + 1) 30 := by
        rw [List.mem_range'_1]; omega
      simpa using h x hmem
    · intro h x hx
      rw [List.mem_range'_1] at hx
      simpa using h x (by omega) (by omega)

/-- Witness for C5 at a concrete calendar: the only trading day is day 2,
and `next_trading_day 0 = 2`. -/
theorem C5_entry_date_spec_witness :
    (0 : Nat) < 2 ∧ (fun x => x == 2) 2 = true
      ∧ ∀ x, 0 < x → x < 2 → (fun x => x == 2) x = false :=
  C5_entry_date_spec.2.1 (fun x => x == 2) 0 2 (by decide)

/-- Claim C6: whenever `add_trading_days d n` succeeds with date `e`
(for `n > 0`), counting trading days exclusively after `d` up to and
including `e` gives back exactly `n`. -/
theorem C6_add_count_roundtrip :
    ∀ (isTd : Nat → Bool) (d n e : Nat), 0 < n →
      addTradingDays isTd d n = some e → countTradingDays isTd d e = n := by
  intro isTd d n e hn h
  unfold addTradingDays at h
  rw [if_neg (by omega)] at h
  have hlen := filtered_range'_getElem?_length isTd (2 * n + 60) (d + 1) (n - 1) e h
  unfold countTradingDays tradingDaysBetween
  rw [hlen]
  omega

/-- Witness for C6 at a concrete calendar where every day trades:
one trading day after day 0 is day 1, and the count back is 1. -/
theorem C6_add_count_roundtrip_witness :
    (0 : Nat) < 1 ∧ countTradingDays (fun _ => true) 0 1 = 1 :=
  ⟨by decide, C6_add_count_roundtrip (fun _ => true) 0 1 1 (by decide) (by decide)⟩

/-! ## DeterministicGate (backend/signals/gate.py) -/

/-- The `BlockReason` enum. -/
inductive BlockReason where
  | scoreTooLow
  | insufficientEvidence
  | evidenceNotTriangulated
  | marginConcern
  | dataIncomplete
  | schemaInvalid
  | llmDeclined
deriving DecidableEq, Repr

/-- The `Evidence.section` literal type `Literal["prepared", "qa"]`. -/
inductive TranscriptSection where
  | prepared
  | qa
deriving DecidableEq, Repr

/-- Embeds the `schemas/llm_output.py` `Evidence` model (the fields the gate reads). -/
structure Evidence where
  quote : String
  speaker : String
  section_ : TranscriptSection
deriving DecidableEq, Repr

/-- Embeds the `schemas/llm_output.py` `KeyFlags` model. -/
structure KeyFlags where
  guidance_positive : Bool := false
  revenue_beat : Bool := false
  margin_concern : Bool := false
  guidance_raised : Bool := false
  buyback_announced : Bool := false
deriving DecidableEq, Repr

/-- Embeds the `schemas/llm_output.py` `BatchScoreOutput` model (floats as `ℚ`). -/
structure BatchScoreOutput where
  score : ℚ
  trade_candidate : Bool
  evidence_count : ℕ
  key_flags : KeyFlags
  evidence_snippets : List Evidence
  no_trade_reason : Option String := none
deriving DecidableEq, Repr

/-- The `GateResult` model. -/
structure GateResult where
  trade_long : Bool
  block_reasons : List BlockReason
  passed_checks : List String
  final_score : ℚ
  confidence : ℚ
  score_threshold_used : ℚ
  evidence_min_used : ℕ
deriving DecidableEq, Repr

/-- The `DeterministicGate` construction state (thresholds resolved from
settings or constructor arguments). -/
structure DeterministicGate where
  score_threshold : ℚ
  evidence_min_count : ℕ
  block_on_margin_concern : Bool
deriving DecidableEq, Repr

/-- Embeds `DeterministicGate._check_triangulation`: at least two snippets and
either more than one distinct speaker or more than one distinct section
(Python set cardinalities become `List.dedup` lengths). -/
def checkTriangulation (o : BatchScoreOutput) : Bool :=
  if o.evidence_snippets.length < 2 then false
  else
    let speakers := (o.evidence_snippets.map (fun e => e.speaker)).dedup
    let sections := (o.evidence_snippets.map (fun e => e.section_)).dedup
    decide (speakers.length > 1) || decide (sections.length > 1)

/-- Python `round(x, 3)` (round half to even on the exact rational). -/
def round3 (q : ℚ) : ℚ :=
  let y := q * 1000
  let n : ℤ := Int.floor y
  let r : ℚ := y - (n : ℚ)
  let z : ℤ :=
    if r < 1 / 2 then n
    else if 1 / 2 < r then n + 1
    else if n % 2 = 0 then n else n + 1
  (z : ℚ) / 1000

/-- Embeds `DeterministicGate._calculate_confidence`. -/
def calculateConfidence (o : BatchScoreOutput) (checksPassed : ℕ) : ℚ :=
  let base := o.score
  let check_factor : ℚ := (checksPassed : ℚ) / 6
  let evidence_factor : ℚ := min ((o.evidence_count : ℚ) / 3) 1
  let confidence := 0.5 * base + 0.3 * check_factor + 0.2 * evidence_factor
  round3 (min (max confidence 0) 1)

/-- Embeds `DeterministicGate.evaluate`: block reasons and passed checks are
accumulated in source order (data completeness, score threshold, evidence
count, triangulation, margin concern, LLM recommendation); a `None`
analysis short-circuits to `SCHEMA_INVALID`. -/
def evaluate (g : DeterministicGate) (llm_output : Option BatchScoreOutput)
    (data_complete : Bool) : GateResult :=
  match llm_output with
  | none =>
    { trade_long := false
      block_reasons := [.schemaInvalid]
      passed_checks := []
      final_score := 0
      confidence := 0
      score_threshold_used := g.score_threshold
      evidence_min_used := g.evidence_min_count }
  | some o =>
    let br1 : List BlockReason := if data_complete then [] else [.dataIncomplete]
    let pc1 : List String := if data_complete then ["data_complete"] else []
    let br2 := br1 ++ (if g.score_threshold ≤ o.score then [] else [.scoreTooLow])
    let pc2 := pc1 ++ (if g.score_threshold ≤ o.score then
      ["score >= " ++ toString g.score_threshold] else [])
    let br3 := br2 ++ (if g.evidence_min_count ≤ o.evidence_count then []
      else [.insufficientEvidence])
    let pc3 := pc2 ++ (if g.evidence_min_count ≤ o.evidence_count then
      ["evidence_count >= " ++ toString g.evidence_min_count] else [])
    let br4 := br3 ++ (if checkTriangulation o then [] else [.evidenceNotTriangulated])
    let pc4 := pc3 ++ (if checkTriangulation o then ["evidence_triangulated"] else [])
    let br5 := br4 ++ (if g.block_on_margin_concern && o.key_flags.margin_concern
      then [.marginConcern] else [])
    let pc5 := pc4 ++ (if g.block_on_margin_concern && o.key_flags.margin_concern
      then [] else ["no_critical_red_flags"])
    let br6 := br5 ++ (if o.trade_candidate then [] else [.llmDeclined])
    let pc6 := pc5 ++ (if o.trade_candidate then ["llm_recommended_trade"] else [])
    let trade_long := br6.length == 0
    let confidence := calculateConfidence o pc6.length
    { trade_long := trade_long
      block_reasons := br6
      passed_checks := pc6
      final_score := o.score
      confidence := confidence
      score_threshold_used := g.score_threshold
      evidence_min_used := g.evidence_min_count }

/-- The number of the six gate checks that pass, written independently of
the list plumbing of `evaluate`. -/
def gateChecksPassed (g : DeterministicGate) (o : BatchScoreOutput)
    (data_complete : Bool) : ℕ :=
  (if data_complete then 1 else 0)
    + (if g.score_threshold ≤ o.score then 1 else 0)
    + (if g.evidence_min_count ≤ o.evidence_count then 1 else 0)
    + (if checkTriangulation o then 1 else 0)
    + (if g.block_on_margin_concern && o.key_flags.margin_concern then 0 else 1)
    + (if o.trade_candidate then 1 else 0)

/-- Claim C3: for every input (any analysis output or `None`, any
`data_complete` flag) the gate trades long exactly when the block-reason
list is empty — no partial-credit acceptance — and a `None` analysis yields
exactly `[SCHEMA_INVALID]` with `trade_long = false` and `confidence = 0`. -/
theorem C3_trade_iff_no_blocks :
    (∀ (g : DeterministicGate) (llm : Option BatchScoreOutput) (dc : Bool),
      (evaluate g llm dc).trade_long = true ↔ (evaluate g llm dc).block_reasons = [])
    ∧ (∀ (g : DeterministicGate) (dc : Bool),
        (evaluate g none dc).block_reasons = [.schemaInvalid]
        ∧ (evaluate g none dc).trade_long = false
        ∧ (evaluate g none dc).confidence = 0) := by
  constructor
  · intro g llm dc
    match llm with
    | none => simp [evaluate]
    | some o =>
      simp only [evaluate]
      split_ifs <;> simp
  · intro g dc
    exact ⟨rfl, rfl, rfl⟩

/-- The lists built by `evaluate` on a non-null analysis count the six
checks: `passed_checks` has one entry per passed check and each check
contributes to exactly one of the two lists. -/
lemma evaluate_counts (g : DeterministicGate) (o : BatchScoreOutput) (dc : Bool) :
    (evaluate g (some o) dc).passed_checks.length = gateChecksPassed g o dc
    ∧ (evaluate g (some o) dc).block_reasons.length + gateChecksPassed g o dc = 6 := by
  simp only [evaluate, gateChecksPassed]
  split_ifs <;> simp

/-- Claim C7: for every non-null analysis output the returned confidence is
`0.5*score + 0.3*(checks_passed/6) + 0.2*min(evidence_count/3, 1)` clamped
to `[0,1]` and rounded to 3 decimals, where `checks_passed` counts the six
checks that passed; and `trade_long` is a function of the check outcomes
alone (it trades exactly when all six pass), so confidence never influences
the decision. -/
theorem C7_confidence_formula :
    ∀ (g : DeterministicGate) (o : BatchScoreOutput) (dc : Bool),
      (evaluate g (some o) dc).confidence
        = round3 (min (max (0.5 * o.score
            + 0.3 * ((gateChecksPassed g o dc : ℚ) / 6)
            + 0.2 * min ((o.evidence_count : ℚ) / 3) 1) 0) 1)
      ∧ (evaluate g (some o) dc).trade_long = decide (gateChecksPassed g o dc = 6) := by
  intro g o dc
  obtain ⟨hpc, hbr⟩ := evaluate_counts g o dc
  constructor
  · have hconf : (evaluate g (some o) dc).confidence
        = calculateConfidence o ((evaluate g (some o) dc).passed_checks.length) := rfl
    rw [hconf, hpc]
    rfl
  · have htl : (evaluate g (some o) dc).trade_long
        = ((evaluate g (some o) dc).block_reasons.length == 0) := rfl
    rw [htl]
    rw [beq_eq_decide, decide_eq_decide]
    omega

/-! ## ConsistencyChecker (backend/eval/consistency_checker.py) -/

/-- The `recommendation` strings `"TRADE" | "NO_TRADE" | "ABSTAIN"`. -/
inductive Recommendation where
  | trade
  | noTrade
  | abstain
deriving DecidableEq, Repr

/-- One entry of `run_results`: `decision` models
`r.get("trade_long", r.get("trade_candidate", False))` and `score` models
`r.get("score", 0.0)`. -/
structure RunResult where
  decision : Bool
  score : ℚ
deriving DecidableEq, Repr

/-- The `ConsistencyChecker` constructor state. -/
structure ConsistencyChecker where
  k : ℕ := 5
  max_flip_rate : ℚ := 0.01
  min_agreement : ℚ := 0.8
deriving DecidableEq, Repr

/-- The `ConsistencyResult` model (the `score_std` field — a floating-point sample
standard deviation, i.e. a real square root — is not representable
executably in `ℚ` and no claim mentions it, so it is left out of the
embedded record). -/
structure ConsistencyResult where
  event_id : String
  k_runs : ℕ
  decisions : List Bool
  scores : List ℚ
  is_consistent : Bool
  majority_decision : Bool
  agreement_rate : ℚ
  recommendation : Recommendation
deriving DecidableEq, Repr

/-- Embeds `decisions = [... for r in run_results]`. -/
def decisionsOf (runs : List RunResult) : List Bool :=
  runs.map (fun r => r.decision)

/-- Embeds `Counter(decisions).most_common(1)[0][0]`.  `Counter` keeps keys in
first-occurrence order — the decision of the first run first — and
`most_common` sorts by count descending with a stable sort, so the top key
is the other Boolean only when it occurs strictly more often than the
decision of the first run.  (For empty `runs` the source raises `IndexError`;
the value returned here for `[]` is never used by `checkEvent`.) -/
def majorityDecision (runs : List RunResult) : Bool :=
  match runs with
  | [] => false
  | r0 :: _ =>
    if (decisionsOf runs).count (!r0.decision)
        > (decisionsOf runs).count r0.decision
    then !r0.decision else r0.decision

/-- Embeds `agreement_rate = majority_count / self.k`. -/
def agreementRate (c : ConsistencyChecker) (runs : List RunResult) : ℚ :=
  ((decisionsOf runs).count (majorityDecision runs) : ℚ) / (c.k : ℚ)

/-- Embeds `is_consistent = agreement_rate >= self.min_agreement`. -/
def isConsistent (c : ConsistencyChecker) (runs : List RunResult) : Bool :=
  decide (c.min_agreement ≤ agreementRate c runs)

/-- The recommendation policy: inconsistent → ABSTAIN, else follow the
majority decision. -/
def recommendationOf (c : ConsistencyChecker) (runs : List RunResult) :
    Recommendation :=
  if isConsistent c runs = false then Recommendation.abstain
  else if majorityDecision runs then Recommendation.trade
  else Recommendation.noTrade

/-- Embeds `ConsistencyChecker.check_event`: raises (`.error`) when the number of
runs differs from `k`, also (an `IndexError` from `most_common(1)[0]`)
when the accepted run list is empty (`k = 0`). -/
def checkEvent (c : ConsistencyChecker) (event_id : String)
    (run_results : List RunResult) : Except String ConsistencyResult :=
  if run_results.length ≠ c.k then
    .error ("Expected " ++ toString c.k ++ " runs, got "
      ++ toString run_results.length)
  else
    match run_results with
    | [] => .error "IndexError: most_common(1) on no decisions"
    | r0 :: rest =>
      .ok
        { event_id := event_id
          k_runs := c.k
          decisions := decisionsOf (r0 :: rest)
          scores := (r0 :: rest).map (fun r => r.score)
          is_consistent := isConsistent c (r0 :: rest)
          majority_decision := majorityDecision (r0 :: rest)
          agreement_rate := agreementRate c (r0 :: rest)
          recommendation := recommendationOf c (r0 :: rest) }

/-- The checker with default construction arguments
(`k = 5`, `min_agreement = 0.8`). -/
def defaultChecker : ConsistencyChecker := {}

/-- Claim C4: `check_event` rejects a run list whose length differs from
`K`; on an accepted list the agreement rate is `majority_count / K`,
consistency holds exactly when the agreement rate reaches `min_agreement`,
inconsistency always recommends ABSTAIN, and a consistent result
recommends TRADE or NO_TRADE by the majority decision; in particular a
3-of-5 majority under the defaults always recommends ABSTAIN. -/
theorem C4_check_event_spec :
    (∀ (c : ConsistencyChecker) (eid : String) (runs : List RunResult),
      runs.length ≠ c.k → ∃ msg, checkEvent c eid runs = .error msg)
    ∧ (∀ (c : ConsistencyChecker) (eid : String) (runs : List RunResult)
        (r : ConsistencyResult), checkEvent c eid runs = .ok r →
        r.agreement_rate = ((r.decisions.count r.majority_decision : ℚ) / (c.k : ℚ))
        ∧ r.decisions = runs.map (fun x => x.decision)
        ∧ (r.is_consistent = true ↔ c.min_agreement ≤ r.agreement_rate)
        ∧ (r.is_consistent = false → r.recommendation = .abstain)
        ∧ (r.is_consistent = true →
            r.recommendation = if r.majority_decision then .trade else .noTrade))
    ∧ (∀ (eid : String) (runs : List RunResult) (r : ConsistencyResult),
        checkEvent defaultChecker eid runs = .ok r →
        r.decisions.count r.majority_decision = 3 →
        r.recommendation = .abstain) := by
  refine ⟨?_, ?_, ?_⟩
  · intro c eid runs hlen
    unfold checkEvent
    rw [if_pos hlen]
    exact ⟨_, rfl⟩
  · intro c eid runs r hok
    unfold checkEvent at hok
    by_cases hlen : runs.length ≠ c.k
    · rw [if_pos hlen] at hok; cases hok
    · rw [if_neg hlen] at hok
      cases runs with
      | nil => cases hok
      | cons r0 rest =>
        cases hok
        dsimp only
        refine ⟨rfl, rfl, ?_, ?_, ?_⟩
        · unfold isConsistent; simp
        · intro hic
          unfold recommendationOf
          rw [if_pos hic]
        · intro hic
          unfold recommendationOf
          rw [if_neg (by rw [hic]; exact fun hcon => nomatch hcon)]
  · intro eid runs r hok hcount
    unfold checkEvent at hok
    by_cases hlen : runs.length ≠ defaultChecker.k
    · rw [if_pos hlen] at hok; cases hok
    · rw [if_neg hlen] at hok
      cases runs with
      | nil => cases hok
      | cons r0 rest =>
        cases hok
        dsimp only at hcount ⊢
        have hic : isConsistent defaultChecker (r0 :: rest) = false := by
          unfold isConsistent agreementRate
          rw [hcount]
          simp only [defaultChecker]
          norm_num
        unfold recommendationOf
        rw [if_pos hic]

/-- A concrete 3-true / 2-false run list. -/
def exRuns5 : List RunResult :=
  [⟨true, 1⟩, ⟨true, 1⟩, ⟨true, 1⟩, ⟨false, 0⟩, ⟨false, 0⟩]

/-- Witness for C4: the empty run list is rejected by the default
checker, and the explicit 3-true/2-false run list yields ABSTAIN. -/
theorem C4_check_event_spec_witness :
    (∃ msg, checkEvent defaultChecker "ev" [] = .error msg)
    ∧ (∃ r, checkEvent defaultChecker "ev" exRuns5 = .ok r
        ∧ r.recommendation = .abstain) := by
  constructor
  · exact C4_check_event_spec.1 defaultChecker "ev" [] (by decide)
  · exact ⟨_, rfl, C4_check_event_spec.2.2 "ev" exRuns5 _ rfl (by decide)⟩

/-- A checker expecting an even number of runs (`k = 4`), to exercise
exact ties. -/
def tieChecker : ConsistencyChecker := { k := 4 }

/-- A tied run list starting with a `true` decision. -/
def exTieA : List RunResult := [⟨true, 1⟩, ⟨false, 1⟩, ⟨true, 1⟩, ⟨false, 1⟩]

/-- The same multiset of runs with the first two swapped, starting with a
`false` decision. -/
def exTieB : List RunResult := [⟨false, 1⟩, ⟨true, 1⟩, ⟨true, 1⟩, ⟨false, 1⟩]

/-- Claim C9: on an exact true/false tie `check_event` resolves the
majority to the decision of the first run (the first-inserted `Counter` key;
determinism across calls on the same list is immediate since the embedded
function is pure), and reordering the same runs can flip the majority:
`exTieB` is a permutation of `exTieA` yet gets the opposite majority. -/
theorem C9_tie_break :
    (∀ (c : ConsistencyChecker) (eid : String) (r0 : RunResult)
        (rest : List RunResult),
      (r0 :: rest).length = c.k →
      (decisionsOf (r0 :: rest)).count true
        = (decisionsOf (r0 :: rest)).count false →
      ∃ r, checkEvent c eid (r0 :: rest) = .ok r
        ∧ r.majority_decision = r0.decision)
    ∧ (∃ rA rB, checkEvent tieChecker "ev" exTieA = .ok rA
        ∧ checkEvent tieChecker "ev" exTieB = .ok rB
        ∧ exTieA.Perm exTieB
        ∧ rA.majority_decision = true
        ∧ rB.majority_decision = false) := by
  constructor
  · intro c eid r0 rest hlen htie
    have heq : (decisionsOf (r0 :: rest)).count (!r0.decision)
        = (decisionsOf (r0 :: rest)).count r0.decision := by
      cases hd : r0.decision
      · rw [Bool.not_false]; exact htie
      · rw [Bool.not_true]; exact htie.symm
    refine ⟨⟨eid, c.k, decisionsOf (r0 :: rest),
        (r0 :: rest).map (fun r => r.score), isConsistent c (r0 :: rest),
        majorityDecision (r0 :: rest), agreementRate c (r0 :: rest),
        recommendationOf c (r0 :: rest)⟩, ?_, ?_⟩
    · unfold checkEvent
      rw [if_neg (by simp [hlen])]
    · show majorityDecision (r0 :: rest) = r0.decision
      unfold majorityDecision
      dsimp only
      rw [if_neg (by rw [heq]; exact Nat.lt_irrefl _)]
  · refine ⟨_, _, rfl, rfl, List.Perm.swap _ _ _, by decide, by decide⟩

/-- Witness for C9: a concrete 2–2 tie whose first run decided `true`. -/
theorem C9_tie_break_witness :
    ∃ r, checkEvent tieChecker "ev"
        ((⟨true, 1⟩ : RunResult) :: [⟨false, 1⟩, ⟨true, 1⟩, ⟨false, 1⟩]) = .ok r
      ∧ r.majority_decision = (⟨true, 1⟩ : RunResult).decision :=
  C9_tie_break.1 tieChecker "ev" ⟨true, 1⟩ [⟨false, 1⟩, ⟨true, 1⟩, ⟨false, 1⟩]
    (by decide) (by decide)

/-! ## FreezePolicy (backend/papertrading/freeze_policy.py) -/

/-- A hexadecimal digit (lower case, as Python produces). -/
def hexDigit (n : Nat) : Char :=
  if n < 10 then Char.ofNat (48 + n) else Char.ofNat (87 + n)

/-- Four hex digits, for `\uXXXX` escapes. -/
def hex4 (n : Nat) : String :=
  String.mk [hexDigit ((n / 4096) % 16), hexDigit ((n / 256) % 16),
    hexDigit ((n / 16) % 16), hexDigit (n % 16)]

/-- The `json.dumps` escaping of one character (`ensure_ascii=True`:
quote, backslash and the special control characters get two-character
escapes, all other characters outside printable ASCII get `\uXXXX`;
code points above `0xFFFF`, which Python encodes as surrogate pairs, do
not occur in any input considered here). -/
def jsonEscapeChar (c : Char) : String :=
  if c = Char.ofNat 34 then "\\\""
  else if c = Char.ofNat 92 then "\\\\"
  else if c = Char.ofNat 10 then "\\n"
  else if c = Char.ofNat 9 then "\\t"
  else if c = Char.ofNat 13 then "\\r"
  else if c = Char.ofNat 8 then "\\b"
  else if c = Char.ofNat 12 then "\\f"
  else if c.toNat < 32 ∨ c.toNat > 126 then "\\u" ++ hex4 c.toNat
  else String.singleton c

/-- The `json.dumps` form of a Python string. -/
def jsonString (s : String) : String :=
  "\"" ++ String.join (s.toList.map jsonEscapeChar) ++ "\""

/-- The `json.dumps` form of the score-threshold float (Python prints the shortest
decimal repr of the double; every property proved below uses only that
this is a function of the value). -/
def jsonNum (q : ℚ) : String := toString q

/-- The `json.dumps` form of an optional string (`None` → `null`). -/
def jsonOptString (s : Option String) : String :=
  match s with
  | none => "null"
  | some v => jsonString v

/-- Embeds `FreezeManifest` — exactly the fields of the pydantic model (note:
there are prompt *version* fields but no prompt *hash* fields). -/
structure FreezeManifest where
  frozen_at : String
  freeze_boundary : String
  git_commit : String
  batch_score_model : String
  full_audit_model : String
  batch_score_prompt_version : String
  full_audit_prompt_version : String
  score_threshold : ℚ
  evidence_min_count : ℕ
  block_on_margin_concern : Bool
  universe_filter : Option String := none
  manifest_hash : String
deriving DecidableEq, Repr

/-- The `json.dumps(..., sort_keys=True)` serialization that
`create_manifest` hashes: the nine configuration arguments in sorted key
order — `frozen_at`, `freeze_boundary` and `manifest_hash` itself are not
part of it. -/
def serializeFreezeContent (git_commit batch_score_model full_audit_model
    batch_score_prompt_version full_audit_prompt_version : String)
    (score_threshold : ℚ) (evidence_min_count : ℕ)
    (block_on_margin_concern : Bool) (universe_filter : Option String) :
    String :=
  "\x7b\"batch_score_model\": " ++ jsonString batch_score_model
    ++ ", \"batch_score_prompt_version\": " ++ jsonString batch_score_prompt_version
    ++ ", \"block_on_margin_concern\": "
    ++ (if block_on_margin_concern then "true" else "false")
    ++ ", \"evidence_min_count\": " ++ toString evidence_min_count
    ++ ", \"full_audit_model\": " ++ jsonString full_audit_model
    ++ ", \"full_audit_prompt_version\": " ++ jsonString full_audit_prompt_version
    ++ ", \"git_commit\": " ++ jsonString git_commit
    ++ ", \"score_threshold\": " ++ jsonNum score_threshold
    ++ ", \"universe_filter\": " ++ jsonOptString universe_filter
    ++ "\x7d"

/-- Embeds `FreezePolicy.create_manifest`: `hashFn` stands for
`hashlib.sha256(...).hexdigest()` and `now` for
`datetime.utcnow().isoformat()`. -/
def createManifest (hashFn : String → String) (now freeze_boundary : String)
    (git_commit batch_score_model full_audit_model
      batch_score_prompt_version full_audit_prompt_version : String)
    (score_threshold : ℚ) (evidence_min_count : ℕ)
    (block_on_margin_concern : Bool) (universe_filter : Option String) :
    FreezeManifest :=
  { frozen_at := now
    freeze_boundary := freeze_boundary
    git_commit := git_commit
    batch_score_model := batch_score_model
    full_audit_model := full_audit_model
    batch_score_prompt_version := batch_score_prompt_version
    full_audit_prompt_version := full_audit_prompt_version
    score_threshold := score_threshold
    evidence_min_count := evidence_min_count
    block_on_margin_concern := block_on_margin_concern
    universe_filter := universe_filter
    manifest_hash := hashFn (serializeFreezeContent git_commit
      batch_score_model full_audit_model batch_score_prompt_version
      full_audit_prompt_version score_threshold evidence_min_count
      block_on_margin_concern universe_filter) }

/-- The `mismatches` list built by `FreezePolicy.validate_config`, in
source order; the raised `ValueError` message is this list joined with
`"; "`. -/
def mismatchList (m : FreezeManifest) (batch_score_model full_audit_model
    batch_score_prompt_version : String) (score_threshold : ℚ)
    (evidence_min_count : ℕ) : List String :=
  (if batch_score_model ≠ m.batch_score_model then
    ["batch_score_model: " ++ batch_score_model ++ " != " ++ m.batch_score_model]
  else [])
  ++ (if full_audit_model ≠ m.full_audit_model then
    ["full_audit_model: " ++ full_audit_model ++ " != " ++ m.full_audit_model]
  else [])
  ++ (if batch_score_prompt_version ≠ m.batch_score_prompt_version then
    ["prompt_version: " ++ batch_score_prompt_version ++ " != "
      ++ m.batch_score_prompt_version]
  else [])
  ++ (if score_threshold ≠ m.score_threshold then
    ["score_threshold: " ++ jsonNum score_threshold ++ " != "
      ++ jsonNum m.score_threshold]
  else [])
  ++ (if evidence_min_count ≠ m.evidence_min_count then
    ["evidence_min_count: " ++ toString evidence_min_count ++ " != "
      ++ toString m.evidence_min_count]
  else [])

/-- Embeds `FreezePolicy.validate_config`: `isFrozenPeriod` models
`date.today() >= self.freeze_boundary`, `manifest` the result of
`load_manifest()`; `.error` carries the list whose `"; "`-join is the
raised `ValueError` message. -/
def validateConfig (isFrozenPeriod : Bool) (manifest : Option FreezeManifest)
    (batch_score_model full_audit_model batch_score_prompt_version : String)
    (score_threshold : ℚ) (evidence_min_count : ℕ) :
    Except (List String) Bool :=
  if isFrozenPeriod = false then .ok true
  else
    match manifest with
    | none => .error ["In frozen period but no manifest exists. "
        ++ "Create manifest with freeze_policy.create_manifest()"]
    | some m =>
      let mismatches := mismatchList m batch_score_model full_audit_model
        batch_score_prompt_version score_threshold evidence_min_count
      if mismatches = [] then .ok true else .error mismatches

/-- The mismatch list is empty exactly when all five checked parameters
agree with the manifest. -/
lemma mismatchList_eq_nil_iff (m : FreezeManifest)
    (bsm fam bspv : String) (st : ℚ) (emc : ℕ) :
    mismatchList m bsm fam bspv st emc = []
      ↔ (bsm = m.batch_score_model ∧ fam = m.full_audit_model
          ∧ bspv = m.batch_score_prompt_version ∧ st = m.score_threshold
          ∧ emc = m.evidence_min_count) := by
  unfold mismatchList
  split_ifs <;> simp_all

/-- Two manifests created over the same configuration but at different
freeze times (different `frozen_at`): the field differs yet the hash is
identical, because `create_manifest` hashes only the nine configuration
arguments. -/
def exManifestA : FreezeManifest :=
  createManifest (fun s => s) "2025-12-01T00:00:00" "2026-01-01" "deadbee"
    "gpt-4o-mini" "claude-3.5-sonnet" "v1.0.0" "v1.0.0" 0.70 2 true none

/-- Same configuration as `exManifestA`, frozen a day later. -/
def exManifestB : FreezeManifest :=
  createManifest (fun s => s) "2025-12-02T00:00:00" "2026-01-01" "deadbee"
    "gpt-4o-mini" "claude-3.5-sonnet" "v1.0.0" "v1.0.0" 0.70 2 true none

/-- Counterexample to claim C2: the two manifests differ in `frozen_at`
yet their `manifest_hash` values are equal, so `manifest_hash` does not
"differ whenever any single field differs"; moreover `FreezeManifest`
carries prompt *version* strings and no `batch_score_prompt_hash` or
`full_audit_prompt_hash` fields exist to be hashed. -/
theorem C2_counterexample :
    exManifestA.frozen_at ≠ exManifestB.frozen_at
      ∧ exManifestA.manifest_hash = exManifestB.manifest_hash :=
  ⟨by decide, rfl⟩

/-- Claim C2 as amended: `manifest_hash` is the hash of the sorted-key
serialization of the nine configuration fields (git commit, the two
models, the two prompt versions, score threshold, evidence minimum,
margin-concern block flag, universe filter); it is identical whenever
those nine values are identical — in particular it does not depend on
`frozen_at` or `freeze_boundary` — and the prompt fields recorded (and
hashed) are the prompt versions, there being no prompt-hash fields. -/
theorem C2_manifest_hash_amended :
    ∀ (hashFn : String → String) (tA tB bdA bdB git bsm fam bspv fapv : String)
      (st : ℚ) (emc : ℕ) (bomc : Bool) (uf : Option String),
      (createManifest hashFn tA bdA git bsm fam bspv fapv st emc bomc uf).manifest_hash
        = hashFn (serializeFreezeContent git bsm fam bspv fapv st emc bomc uf)
      ∧ (createManifest hashFn tA bdA git bsm fam bspv fapv st emc bomc uf).manifest_hash
        = (createManifest hashFn tB bdB git bsm fam bspv fapv st emc bomc uf).manifest_hash
      ∧ (createManifest hashFn tA bdA git bsm fam bspv fapv st emc bomc uf).frozen_at = tA
      ∧ (createManifest hashFn tA bdA git bsm fam bspv fapv st emc bomc uf).batch_score_prompt_version
        = bspv :=
  fun _ _ _ _ _ _ _ _ _ _ _ _ _ _ => ⟨rfl, rfl, rfl, rfl⟩

/-- Claim C8: outside the frozen period `validate_config` accepts any
values; in the frozen period with a loaded manifest it succeeds exactly
when all five checked parameters match, and on failure the raised message
lists every mismatched field, not only the first. -/
theorem C8_validate_config_spec :
    (∀ (m? : Option FreezeManifest) (bsm fam bspv : String) (st : ℚ) (emc : ℕ),
      validateConfig false m? bsm fam bspv st emc = .ok true)
    ∧ (∀ (m : FreezeManifest) (bsm fam bspv : String) (st : ℚ) (emc : ℕ),
        validateConfig true (some m) bsm fam bspv st emc = .ok true
          ↔ (bsm = m.batch_score_model ∧ fam = m.full_audit_model
              ∧ bspv = m.batch_score_prompt_version ∧ st = m.score_threshold
              ∧ emc = m.evidence_min_count))
    ∧ (∀ (m : FreezeManifest) (bsm fam bspv : String) (st : ℚ) (emc : ℕ)
        (msgs : List String),
        validateConfig true (some m) bsm fam bspv st emc = .error msgs →
        (bsm ≠ m.batch_score_model →
          ("batch_score_model: " ++ bsm ++ " != " ++ m.batch_score_model) ∈ msgs)
        ∧ (fam ≠ m.full_audit_model →
          ("full_audit_model: " ++ fam ++ " != " ++ m.full_audit_model) ∈ msgs)
        ∧ (bspv ≠ m.batch_score_prompt_version →
          ("prompt_version: " ++ bspv ++ " != " ++ m.batch_score_prompt_version) ∈ msgs)
        ∧ (st ≠ m.score_threshold →
          ("score_threshold: " ++ jsonNum st ++ " != " ++ jsonNum m.score_threshold) ∈ msgs)
        ∧ (emc ≠ m.evidence_min_count →
          ("evidence_min_count: " ++ toString emc ++ " != "
            ++ toString m.evidence_min_count) ∈ msgs)) := by
  refine ⟨?_, ?_, ?_⟩
  · intro m? bsm fam bspv st emc
    rfl
  · intro m bsm fam bspv st emc
    unfold validateConfig
    rw [if_neg (by simp)]
    dsimp only
    by_cases hms : mismatchList m bsm fam bspv st emc = []
    · rw [if_pos hms]
      rw [mismatchList_eq_nil_iff] at hms
      simp [hms]
    · rw [if_neg hms]
      have hne := hms
      rw [mismatchList_eq_nil_iff] at hne
      simp [hne]
  · intro m bsm fam bspv st emc msgs hval
    unfold validateConfig at hval
    rw [if_neg (by simp)] at hval
    dsimp only at hval
    by_cases hms : mismatchList m bsm fam bspv st emc = []
    · rw [if_pos hms] at hval; cases hval
    · rw [if_neg hms] at hval
      cases hval
      refine ⟨?_, ?_, ?_, ?_, ?_⟩ <;> intro hne <;> simp [mismatchList, hne]

/-- Witness for C8 in the error direction: a concrete frozen-period
mismatch on `score_threshold` (0.75 vs 0.70) whose raised message list
contains the `score_threshold` line. -/
theorem C8_validate_config_spec_witness :
    (0.75 : ℚ) ≠ exManifestA.score_threshold
    ∧ ("score_threshold: " ++ jsonNum 0.75 ++ " != "
        ++ jsonNum exManifestA.score_threshold)
      ∈ mismatchList exManifestA "gpt-4o-mini" "claude-3.5-sonnet" "v1.0.0"
          0.75 2 := by
  have h := C8_validate_config_spec.2.2 exManifestA "gpt-4o-mini"
    "claude-3.5-sonnet" "v1.0.0" 0.75 2
    (mismatchList exManifestA "gpt-4o-mini" "claude-3.5-sonnet" "v1.0.0" 0.75 2)
  have hne : (0.75 : ℚ) ≠ exManifestA.score_threshold := by norm_num [exManifestA, createManifest]
  have hval : validateConfig true (some exManifestA) "gpt-4o-mini"
      "claude-3.5-sonnet" "v1.0.0" 0.75 2
      = .error (mismatchList exManifestA "gpt-4o-mini" "claude-3.5-sonnet"
          "v1.0.0" 0.75 2) := by
    unfold validateConfig
    rw [if_neg (by simp)]
    dsimp only
    rw [if_neg (by
      intro hc0
      rw [mismatchList_eq_nil_iff] at hc0
      exact hne hc0.2.2.2.1)]
  exact ⟨hne, ((h hval).2.2.2.1) hne⟩

/-! ## OrderBook (backend/papertrading/order_book.py) -/

/-- The `OrderStatus` enum. -/
inductive OrderStatus where
  | pending
  | open_
  | closed
  | cancelled
deriving DecidableEq, Repr

/-- Embeds `PaperOrder` (dates as day numbers, floats as `ℚ`). -/
structure PaperOrder where
  order_id : String
  signal_id : String
  symbol : String
  event_date : ℕ
  entry_date : ℕ
  exit_date : ℕ
  score : ℚ
  confidence : ℚ
  direction : String := "long"
  status : OrderStatus := .pending
  entry_price : Option ℚ := none
  exit_price : Option ℚ := none
  return_pct : Option ℚ := none
  pnl : Option ℚ := none
  created_at : String
  entered_at : Option String := none
  exited_at : Option String := none
  run_id : String
  model : String
  prompt_version : String
deriving DecidableEq, Repr

/-- The in-memory `self._orders` dict, keyed by `order_id` (file
persistence is plain serialization of this state and is not modelled). -/
structure OrderBook where
  orders : List (String × PaperOrder)
deriving DecidableEq, Repr

/-- Embeds `self._orders[order_id]` — `none` models the raised `KeyError`. -/
def lookupOrder (b : OrderBook) (oid : String) : Option PaperOrder :=
  b.orders.lookup oid

/-- Store a mutated order back under its id. -/
def setOrder (b : OrderBook) (oid : String) (o : PaperOrder) : OrderBook :=
  ⟨b.orders.map (fun p => if p.1 = oid then (oid, o) else p)⟩

/-- Embeds `OrderBook.mark_entered`: unconditionally sets `status = OPEN`,
records the entry price and timestamp.  The current status is never
inspected. -/
def markEntered (b : OrderBook) (oid : String) (entry_price : ℚ)
    (now : String) : Option (OrderBook × PaperOrder) :=
  match lookupOrder b oid with
  | none => none
  | some o =>
    let o2 := { o with status := OrderStatus.open_
                       entry_price := some entry_price
                       entered_at := some now }
    some (setOrder b oid o2, o2)

/-- Embeds `OrderBook.mark_exited`: unconditionally sets `status = CLOSED`,
records the exit price and timestamp, and computes `return_pct` when
`order.entry_price` is truthy (`None` and `0.0` are both falsy in
the Python test `if order.entry_price:`).  The current status is never
inspected. -/
def markExited (b : OrderBook) (oid : String) (exit_price : ℚ)
    (now : String) : Option (OrderBook × PaperOrder) :=
  match lookupOrder b oid with
  | none => none
  | some o =>
    let base := { o with status := OrderStatus.closed
                         exit_price := some exit_price
                         exited_at := some now }
    let o2 := match o.entry_price with
      | some ep =>
        if ep ≠ 0 then
          { base with return_pct := some ((exit_price - ep) / ep) }
        else base
      | none => base
    some (setOrder b oid o2, o2)

/-- Embeds `OrderBook.cancel_order`: unconditionally sets `status = CANCELLED`
(the `reason` argument is unused by the source, too).  The current status
is never inspected. -/
def cancelOrder (b : OrderBook) (oid : String) (reason : String) :
    Option (OrderBook × PaperOrder) :=
  match lookupOrder b oid with
  | none => none
  | some o =>
    let o2 := { o with status := OrderStatus.cancelled }
    some (setOrder b oid o2, o2)

/-- Embeds `OrderBook.open_position`: builds the new `PaperOrder`; the generated
`order_id` (`uuid`) and `created_at` timestamp are parameters here.  Note
`event_date := entry_date` (source comment: "Approximate") and
`confidence := score`. -/
def openPosition (symbol : String) (entry_date exit_date : ℕ)
    (signal_id : String) (score : ℚ)
    (run_id model prompt_version order_id created_at : String) : PaperOrder :=
  { order_id := order_id
    signal_id := signal_id
    symbol := symbol
    event_date := entry_date
    entry_date := entry_date
    exit_date := exit_date
    score := score
    confidence := score
    status := OrderStatus.pending
    created_at := created_at
    run_id := run_id
    model := model
    prompt_version := prompt_version }

/-- A concrete order awaiting entry. -/
def exPendingOrder : PaperOrder :=
  { order_id := "o1", signal_id := "s1", symbol := "ACME"
    event_date := 10, entry_date := 11, exit_date := 41
    score := 0.8, confidence := 0.8
    created_at := "t0", run_id := "paper", model := "gpt-4o-mini"
    prompt_version := "v1.0.0" }

/-- A book holding only the pending order `o1`. -/
def exBook : OrderBook := ⟨[("o1", exPendingOrder)]⟩

/-- A book holding `o1` already OPEN. -/
def exOpenBook : OrderBook :=
  ⟨[("o1", { exPendingOrder with status := OrderStatus.open_ })]⟩

/-- Counterexample to claim C1: `o1` is PENDING, yet `mark_exited`
succeeds on it and moves it straight to CLOSED (a PENDING→CLOSED edge),
and `cancel_order` succeeds on an OPEN order and moves it to CANCELLED
(an OPEN→CANCELLED edge) — neither transition attempt is rejected. -/
theorem C1_counterexample :
    (lookupOrder exBook "o1").map (fun o => o.status) = some .pending
    ∧ (markExited exBook "o1" 10 "t1").map (fun r => r.2.status) = some .closed
    ∧ (lookupOrder exOpenBook "o1").map (fun o => o.status) = some .open_
    ∧ (cancelOrder exOpenBook "o1" "why").map (fun r => r.2.status)
        = some .cancelled :=
  ⟨rfl, rfl, rfl, rfl⟩

/-- Claim C1 as amended: the three mutators never inspect the current
status — whenever the order id is present, `mark_entered` sets OPEN,
`mark_exited` sets CLOSED and `cancel_order` sets CANCELLED, whatever the
previous status was, so transitions such as PENDING→CLOSED and
OPEN→CANCELLED are possible and status is not monotone; the only
rejection any of them performs is a `KeyError` on a missing order id.
The PENDING→OPEN→CLOSED discipline is maintained only by callers
selecting orders through the status-filtered `get_pending_entries` /
`get_pending_exits` queries. -/
theorem C1_status_amended :
    (∀ (b : OrderBook) (oid : String) (p : ℚ) (now reason : String)
        (o : PaperOrder), lookupOrder b oid = some o →
      (markEntered b oid p now).map (fun r => r.2.status) = some .open_
      ∧ (markExited b oid p now).map (fun r => r.2.status) = some .closed
      ∧ (cancelOrder b oid reason).map (fun r => r.2.status) = some .cancelled)
    ∧ (∀ (b : OrderBook) (oid : String) (p : ℚ) (now reason : String),
        lookupOrder b oid = none →
      markEntered b oid p now = none
      ∧ markExited b oid p now = none
      ∧ cancelOrder b oid reason = none) := by
  constructor
  · intro b oid p now reason o h
    refine ⟨?_, ?_, ?_⟩
    · simp [markEntered, h]
    · simp only [markExited, h]
      match o.entry_price with
      | none => rfl
      | some ep =>
        by_cases hep : ep ≠ 0
        · simp [hep]
        · simp [hep]
    · simp [cancelOrder, h]
  · intro b oid p now reason h
    exact ⟨by simp [markEntered, h], by simp [markExited, h],
      by simp [cancelOrder, h]⟩

/-- Witness for C1 (amended): applied to the concrete pending order
`o1` — `mark_exited` jumps it straight to CLOSED. -/
theorem C1_status_amended_witness :
    (markEntered exBook "o1" 10 "t1").map (fun r => r.2.status) = some .open_
    ∧ (markExited exBook "o1" 10 "t1").map (fun r => r.2.status) = some .closed
    ∧ (cancelOrder exBook "o1" "why").map (fun r => r.2.status)
        = some .cancelled :=
  C1_status_amended.1 exBook "o1" 10 "t1" "why" exPendingOrder rfl

/-- Claim C10: every order created by `open_position` has
`event_date = entry_date` (the true T day is not recorded, so
`event_date < entry_date` fails for these orders), `confidence = score`,
status PENDING, and no entry or exit price. -/
theorem C10_open_position_fields :
    ∀ (symbol : String) (entry_date exit_date : ℕ) (signal_id : String)
      (score : ℚ) (run_id model prompt_version order_id created_at : String),
      (openPosition symbol entry_date exit_date signal_id score run_id model
          prompt_version order_id created_at).event_date
        = (openPosition symbol entry_date exit_date signal_id score run_id
            model prompt_version order_id created_at).entry_date
      ∧ ¬((openPosition symbol entry_date exit_date signal_id score run_id
            model prompt_version order_id created_at).event_date
          < (openPosition symbol entry_date exit_date signal_id score run_id
              model prompt_version order_id created_at).entry_date)
      ∧ (openPosition symbol entry_date exit_date signal_id score run_id model
          prompt_version order_id created_at).confidence = score
      ∧ (openPosition symbol entry_date exit_date signal_id score run_id model
          prompt_version order_id created_at).status = .pending
      ∧ (openPosition symbol entry_date exit_date signal_id score run_id model
          prompt_version order_id created_at).entry_price = none
      ∧ (openPosition symbol entry_date exit_date signal_id score run_id model
          prompt_version order_id created_at).exit_price = none :=
  fun _ _ _ _ _ _ _ _ _ _ =>
    ⟨rfl, Nat.lt_irrefl _, rfl, rfl, rfl, rfl⟩

/-- Witness for C10 at a concrete call of `open_position`. -/
theorem C10_open_position_fields_witness :
    (openPosition "ACME" 11 41 "s1" 0.8 "paper" "gpt-4o-mini" "v1.0.0" "id1"
        "t0").event_date
      = (openPosition "ACME" 11 41 "s1" 0.8 "paper" "gpt-4o-mini" "v1.0.0"
          "id1" "t0").entry_date
    ∧ ¬((openPosition "ACME" 11 41 "s1" 0.8 "paper" "gpt-4o-mini" "v1.0.0"
          "id1" "t0").event_date
        < (openPosition "ACME" 11 41 "s1" 0.8 "paper" "gpt-4o-mini" "v1.0.0"
            "id1" "t0").entry_date)
    ∧ (openPosition "ACME" 11 41 "s1" 0.8 "paper" "gpt-4o-mini" "v1.0.0" "id1"
        "t0").confidence = 0.8
    ∧ (openPosition "ACME" 11 41 "s1" 0.8 "paper" "gpt-4o-mini" "v1.0.0" "id1"
        "t0").status = .pending
    ∧ (openPosition "ACME" 11 41 "s1" 0.8 "paper" "gpt-4o-mini" "v1.0.0" "id1"
        "t0").entry_price = none
    ∧ (openPosition "ACME" 11 41 "s1" 0.8 "paper" "gpt-4o-mini" "v1.0.0" "id1"
        "t0").exit_price = none :=
  C10_open_position_fields "ACME" 11 41 "s1" 0.8 "paper" "gpt-4o-mini"
    "v1.0.0" "id1" "t0"

end AgenticTradeLong
